import Mathlib

/-!
Verification development for `whisper_bridge.py` (open-whispr).

The Python source is shallowly embedded below.  External effects
(filesystem probes, model construction by the inference engine, audio
decoding, wall-clock time, the download stop event) are modelled as
explicit oracle parameters or as per-iteration observation records, so
that every embedded function is a pure, executable Lean definition whose
control flow mirrors the Python control flow line by line.

Conventions:
* Python `float` timestamps and percentages are modelled as `ℚ`.
* Python byte counts are modelled as `ℕ`.
* The Python `dict` used as the model cache is modelled as an
  association list in insertion order: new keys are appended at the
  tail, `next(iter(d))` is the head, `del d[k]` removes the entry with
  key `k` (keys are unique in a `dict`, and the embedded code never
  inserts a key that is already present).
* Python f-strings are modelled with string concatenation; the
  apostrophe character is written with its escape `\x27`.
-/

namespace WhisperBridge

/-! ## Static model catalog (`WHISPER_MODELS`, lines 80-145) -/

structure ModelInfo where
  hf_id : String
  size_mb : Nat
  description : String
  family : String
deriving DecidableEq

/-- The static catalog `WHISPER_MODELS` from the source, in source order. -/
def WHISPER_MODELS : List (String × ModelInfo) :=
  [ ("tiny", ⟨"tiny", 75, "Fastest, multilingual, lower quality", "whisper"⟩),
    ("base", ⟨"base", 145, "Multilingual, good balance", "whisper"⟩),
    ("small", ⟨"small", 488, "Multilingual, better quality", "whisper"⟩),
    ("medium", ⟨"medium", 1530, "Multilingual, high quality", "whisper"⟩),
    ("large-v3", ⟨"large-v3", 3094, "Multilingual, best quality", "whisper"⟩),
    ("turbo", ⟨"turbo", 1620, "Multilingual, fast + good quality", "whisper"⟩),
    ("distil-small.en",
      ⟨"Systran/faster-distil-whisper-small.en", 166,
        "6x faster, English input/output only", "distil-whisper"⟩),
    ("distil-medium.en",
      ⟨"Systran/faster-distil-whisper-medium.en", 394,
        "Fast, English input/output only", "distil-whisper"⟩),
    ("distil-large-v2",
      ⟨"Systran/faster-distil-whisper-large-v2", 756,
        "6x faster, multilingual to English output", "distil-whisper"⟩),
    ("distil-large-v3",
      ⟨"Systran/faster-distil-whisper-large-v3", 756,
        "6x faster, multilingual to English output", "distil-whisper"⟩) ]

/-- Catalog lookup: `model_name in WHISPER_MODELS` / `WHISPER_MODELS[model_name]`. -/
def lookupModel (name : String) : Option ModelInfo :=
  (WHISPER_MODELS.find? (fun e => e.1 = name)).map (fun e => e.2)

/-! ## Cache path resolution (`get_model_cache_path`, lines 316-339) -/

/-- `hf_id.replace('/', '--')` from line 327: every slash becomes two
dashes. -/
def slashToDashes (hf : String) : String :=
  ⟨hf.data.foldr (fun c acc => if c = '/' then '-' :: '-' :: acc else c :: acc) []⟩

/-- `'/' in hf_id` from line 325: true when the id names an explicit repo. -/
def hasSlash (hf : String) : Bool :=
  hf.data.contains '/'


/-- `get_model_cache_path` (lines 316-339).  `cacheDir` stands for the
expansion of `~/.cache/huggingface/hub` (`get_cache_dir`, lines 311-313);
`os.path.join` is concatenation with a separator.  Unknown identifiers
return `none` (Python `None`). -/
def get_model_cache_path (cacheDir : String) (model_name : String) : Option String :=
  match lookupModel model_name with
  | none => none
  | some info =>
    let hf := info.hf_id
    let cacheName :=
      if hasSlash hf then
        "models--" ++ slashToDashes hf
      else if hf = "turbo" then
        "models--Systran--faster-whisper-large-v3-turbo"
      else if hf = "large-v3" then
        "models--Systran--faster-whisper-large-v3"
      else
        "models--Systran--faster-whisper-" ++ hf
    some (cacheDir ++ "/" ++ cacheName)

/-! ## Model cache (`load_model`, lines 369-413)

The inference backend (`WhisperModel(...)`, lines 392-397) is an oracle
`construct : String → Option H`: it receives the resolved HuggingFace id
and returns `some` handle, or `none` when construction raises one of the
exceptions caught on lines 408-413 (in which case the Python function
returns `None` and caches nothing). -/

/-- Resolution of the HuggingFace model id (lines 384-388): catalog
identifiers map to their `hf_id`, unknown identifiers pass through
literally ("for custom models"). -/
def resolveHfId (model_name : String) : String :=
  match lookupModel model_name with
  | some info => info.hf_id
  | none => model_name

/-- `model_name in _model_cache` / `_model_cache[model_name]` (lines 376-377). -/
def lookupCache {H : Type} (cache : List (String × H)) (name : String) : Option H :=
  (cache.find? (fun e => e.1 = name)).map (fun e => e.2)

/-- `load_model` (lines 369-413), returning the result (`none` = Python
`None`) together with the updated cache.  On a cache hit the cache is
unchanged; on construction failure nothing is cached; on success, if the
cache already holds at least 2 entries, the first-inserted entry
(`next(iter(_model_cache))`, line 401) is deleted before inserting. -/
def load_model {H : Type} (construct : String → Option H)
    (cache : List (String × H)) (model_name : String) :
    Option H × List (String × H) :=
  match lookupCache cache model_name with
  | some m => (some m, cache)
  | none =>
    match construct (resolveHfId model_name) with
    | none => (none, cache)
    | some model =>
      let cache' := if 2 ≤ cache.length then cache.tail else cache
      (some model, cache' ++ [(model_name, model)])

/-- The cache produced by a sequence of `load_model` calls (in list
order) starting from the empty cache (the process starts with
`_model_cache = {}`, line 266). -/
def loadSeq {H : Type} (construct : String → Option H) (names : List String) :
    List (String × H) :=
  names.foldl (fun c n => (load_model construct c n).2) []

/-! ## Transcription engine (`transcribe_audio`, lines 682-733) and the
command server (`run_server`, lines 779-893)

External effects of the server are collected in an environment `SEnv`:
* `construct` — the inference backend, as for `load_model`;
* `fsExists` — `os.path.exists`;
* `decode` — `model.transcribe(audio_path, **options)` together with the
  segment iteration (lines 712-717): on success it yields the list of
  per-segment `segment.text` fragments and `info.language` (`none` when
  the backend omits the attribute, line 720); on an exception it yields
  the exception message, which `transcribe_audio` catches (lines
  729-733). -/

structure SEnv (H : Type) where
  construct : String → Option H
  fsExists : String → Bool
  decode : H → String → Option String → String → Except String (List String × Option String)

/-- Python `str.strip()` (line 719): remove leading and trailing
whitespace characters. -/
def pyStrip (s : String) : String :=
  ⟨((s.data.dropWhile Char.isWhitespace).reverse.dropWhile Char.isWhitespace).reverse⟩

/-- Responses written by the bridge, one constructor per response shape:
`err m` is `{"error": m, "success": false}`; `pong` is
`{"type": "pong", "success": true}`; `shutdownAck` is
`{"type": "shutdown", "success": true}`; `reloaded m` is
`{"type": "reloaded", "model": m, "success": true}`; `okText t l` is
`{"text": t, "language": l, "success": true}`. -/
inductive Response where
  | err (msg : String)
  | pong
  | shutdownAck
  | reloaded (model : String)
  | okText (text : String) (language : String)
deriving DecidableEq

/-- `transcribe_audio` (lines 682-733), returning the response and the
updated model cache (the Python function mutates the global cache
through `load_model`).  Fixed decode options (`beam_size`, `vad_filter`,
lines 702-709) are invariant and folded into the `decode` oracle; the
`language`/`task` request fields are passed through to it. -/
def transcribe_audio {H : Type} (env : SEnv H) (cache : List (String × H))
    (audio_path : String) (model_name : String)
    (language : Option String) (task : String) :
    Response × List (String × H) :=
  if ¬ env.fsExists audio_path then
    (.err ("Audio file not found: " ++ audio_path), cache)
  else
    match load_model env.construct cache model_name with
    | (none, cache') => (.err "Failed to load model", cache')
    | (some model, cache') =>
      match env.decode model audio_path language task with
      | .error e => (.err e, cache')
      | .ok (segments, lang) =>
        (.okText (pyStrip (String.intercalate " " segments)) (lang.getD "unknown"), cache')

/-- A request object: a parsed JSON object with the fields the server
reads (`request.get(...)`, lines 820-853).  A field the object lacks is
`none`. -/
structure Request where
  command : Option String
  audio_path : Option String
  language : Option String
  task : Option String
  model : Option String
deriving DecidableEq

/-- `request.get("command", "transcribe")` (line 820). -/
def commandOf (r : Request) : String :=
  r.command.getD "transcribe"

/-- The mutable session state of `run_server`: the active model
identifier `model_name`, the local handle variable `model`, and the
global `_model_cache`. -/
structure SState (H : Type) where
  modelName : String
  model : Option H
  cache : List (String × H)
deriving DecidableEq

/-- One dispatch of a parsed request (lines 820-884): the response
written, the session state afterwards, and whether the loop breaks
(`shutdown`).  Control flow mirrors the `if/elif` chain:
* `ping` (lines 822-824);
* `shutdown` (lines 826-829): acknowledge, then break;
* `transcribe` (lines 831-849): missing `audio_path`, then
  `os.path.exists`, then delegate to `transcribe_audio` with the
  session's active model;
* `reload` (lines 851-880): same identifier is a no-op acknowledgment;
  otherwise delete the active entry from the cache (guarded `del`,
  lines 860-861), drop the handle, attempt GPU cleanup (no effect on
  the modelled state), then `load_model` the new identifier — on
  failure report and leave `model_name` unchanged (the local `model`
  becomes `None`), on success update `model_name`;
* anything else: unknown command (lines 882-884). -/
def dispatchReq {H : Type} (env : SEnv H) (st : SState H) (r : Request) :
    Response × SState H × Bool :=
  let command := commandOf r
  if command = "ping" then
    (.pong, st, false)
  else if command = "shutdown" then
    (.shutdownAck, st, true)
  else if command = "transcribe" then
    match r.audio_path with
    | none => (.err "Missing audio_path", st, false)
    | some p =>
      if ¬ env.fsExists p then
        (.err ("Audio file not found: " ++ p), st, false)
      else
        let res := transcribe_audio env st.cache p st.modelName r.language (r.task.getD "transcribe")
        (res.1, { st with cache := res.2 }, false)
  else if command = "reload" then
    let new_model := r.model.getD st.modelName
    if new_model = st.modelName then
      (.reloaded st.modelName, st, false)
    else
      let cache₁ := st.cache.filter (fun e => e.1 ≠ st.modelName)
      match load_model env.construct cache₁ new_model with
      | (none, cache₂) =>
        (.err ("Failed to load model \x27" ++ new_model ++ "\x27"),
          { st with model := none, cache := cache₂ }, false)
      | (some m, cache₂) =>
        (.reloaded new_model,
          { modelName := new_model, model := some m, cache := cache₂ }, false)
  else
    (.err ("Unknown command: " ++ command), st, false)

/-- One physical input line, by the outcome of `line.strip()` and
`json.loads(line)`:
* `blank` — empty after stripping (line 810);
* `malformed e` — `json.loads` raised `JSONDecodeError` with message `e`
  (lines 813-818);
* `nonObject e` — valid JSON that is not an object, so `request.get`
  raises and the per-iteration catch-all (lines 889-891) answers with a
  server error built from the exception message `e`;
* `req r` — a parsed JSON object. -/
inductive Line where
  | blank
  | malformed (emsg : String)
  | nonObject (emsg : String)
  | req (r : Request)
deriving DecidableEq

/-- The server loop of `run_server` (lines 801-891), fed the sequence of
lines read from stdin; the list ending is EOF (lines 804-807).  Returns
the responses written to stdout, in order. -/
def runServerLoop {H : Type} (env : SEnv H) (st : SState H) : List Line → List Response
  | [] => []
  | l :: ls =>
    match l with
    | .blank => runServerLoop env st ls
    | .malformed e => .err ("Invalid JSON: " ++ e) :: runServerLoop env st ls
    | .nonObject e => .err ("Server error: " ++ e) :: runServerLoop env st ls
    | .req r =>
      let d := dispatchReq env st r
      d.1 :: (if d.2.2 then [] else runServerLoop env d.2.1 ls)

/-! Specification-side view of the server loop, used to state claim C1:
the lines the loop consumes, and a response stream with exactly one
response per consumed non-blank line. -/

/-- Whether a line is a `shutdown` request (the only line kind that ends
the session other than EOF). -/
def isShutdownLine : Line → Bool
  | .req r => commandOf r = "shutdown"
  | _ => false

/-- Whether a line is non-blank. -/
def nonBlankLine : Line → Bool
  | .blank => false
  | _ => true

/-- The lines the session consumes: everything up to and including the
first `shutdown` request, or the whole input if there is none. -/
def consumedLines : List Line → List Line
  | [] => []
  | l :: ls => if isShutdownLine l then [l] else l :: consumedLines ls

/-- The single response a non-blank line elicits, with the session state
after it.  (Blank lines never reach this function in the statements
below; the `blank` case is arbitrary.) -/
def respondLine {H : Type} (env : SEnv H) (st : SState H) : Line → Response × SState H
  | .blank => (.err "", st)
  | .malformed e => (.err ("Invalid JSON: " ++ e), st)
  | .nonObject e => (.err ("Server error: " ++ e), st)
  | .req r => let d := dispatchReq env st r; (d.1, d.2.1)

/-- Exactly one response per line, in order, threading the session state. -/
def oneRespEach {H : Type} (env : SEnv H) (st : SState H) : List Line → List Response
  | [] => []
  | l :: ls =>
    let p := respondLine env st l
    p.1 :: oneRespEach env p.2 ls

/-! ## Size on disk (`get_model_size_on_disk`, lines 353-366)

The directory walk (`os.walk`) yields file paths; for each one the code
calls `os.path.isfile(fp)` and then `os.path.getsize(fp)`.  These are
two separate system calls against a filesystem that a concurrent
download may be mutating, so each walked file is modelled by the two
observations the two calls make:
* `isRegularAtCheck` — the result of `os.path.isfile` (which returns
  `False` when its `stat` fails, so a vanished file reads `false`);
* `sizeAtRead` — the result of `os.path.getsize`: `some s` when `stat`
  succeeds with size `s`, `none` when it fails, in which case
  `os.path.getsize` raises `OSError`.
A raised `OSError` propagates out of `get_model_size_on_disk` (there is
no handler in the function), modelled with `Except.error`. -/

structure FileObs where
  isRegularAtCheck : Bool
  sizeAtRead : Option Nat
deriving DecidableEq

/-- The summation loop of `get_model_size_on_disk` (lines 359-364). -/
def walkTotalSize : List FileObs → Except String Nat
  | [] => .ok 0
  | f :: fs =>
    if f.isRegularAtCheck then
      match f.sizeAtRead with
      | some s => (walkTotalSize fs).map (fun t => s + t)
      | none => .error "OSError: stat failed in os.path.getsize"
    else
      walkTotalSize fs

/-- `get_model_size_on_disk` (lines 353-366).  `pathExists` is
`os.path.exists(cache_path)`; `files` is the sequence of files the walk
yields with their two stat observations. -/
def get_model_size_on_disk (cacheDir : String) (model_name : String)
    (pathExists : Bool) (files : List FileObs) : Except String Nat :=
  match get_model_cache_path cacheDir model_name with
  | none => .ok 0
  | some _ => if ¬ pathExists then .ok 0 else walkTotalSize files

/-! ## Download progress monitor (`monitor_download_progress`, lines 416-491)

Each iteration of the `while` loop samples the environment: whether the
stop event is set, the current wall-clock time, the directory size the
walk computes, and whether the walk (the body's `try` block) succeeded.
A run of the monitor is therefore driven by a finite trace of such
observations; the loop also ends when the trace is exhausted (the
process ends).  The two `time.time()` calls of one iteration (the
ceiling check on line 435 and `current_time` on line 447) are modelled
as the same instant. -/

structure Obs where
  stop : Bool
  now : ℚ
  size : Nat
  walkOk : Bool
deriving DecidableEq

/-- Why the monitor loop ended. -/
inductive ExitReason where
  | cancelled   -- `stop_event.is_set()` (line 433)
  | timeout     -- hard ceiling exceeded (lines 435-437)
  | complete    -- `percentage >= 95` (lines 478-479)
  | stall       -- no growth since the previous poll and a long gap (lines 481-483)
  | traceEnd    -- the observation trace ended with the loop still running
deriving DecidableEq

/-- A progress event printed on line 475 (numeric fields unrounded; the
Python code rounds only for display). -/
structure ProgressEvent where
  model : String
  downloaded_bytes : Nat
  total_bytes : Nat
  percentage : ℚ
  speed_mbps : ℚ
deriving DecidableEq

/-- `MAX_MONITOR_TIME = 30 * 60` seconds (line 431). -/
def MAX_MONITOR_TIME : ℚ := 30 * 60

/-- The mutable loop state (lines 424-428): `last_size`,
`last_update_time`, `speed_samples`, `last_progress_update`. -/
structure MState where
  lastSize : Nat
  lastUpdateTime : ℚ
  speedSamples : List ℚ
  lastProgressUpdate : ℚ
deriving DecidableEq

/-- Initial loop state (lines 424-428): `last_size = 0`, both time
variables set to `time.time()` at entry, no speed samples,
`last_progress_update = 0`. -/
def initMState (start : ℚ) : MState :=
  ⟨0, start, [], 0⟩

/-- `percentage = min((current_size / expected_bytes * 100) if expected_bytes > 0 else 0, 100)`
(lines 460-461), with `expected_bytes = expected_size * 1024 * 1024`. -/
def percentageOf (expected_size : Nat) (current_size : Nat) : ℚ :=
  let expected_bytes := expected_size * 1024 * 1024
  min (if expected_bytes > 0 then (current_size : ℚ) / (expected_bytes : ℚ) * 100 else 0) 100

/-- The smoothed-speed update (lines 450-458): when the size grew over a
positive interval from a positive base, append the instantaneous rate to
the window, cap the window at 10 samples (dropping the oldest), and
report the window mean; otherwise report 0 and leave the window alone. -/
def speedUpdate (lastSize : Nat) (timeDiff : ℚ) (currentSize : Nat)
    (samples : List ℚ) : ℚ × List ℚ :=
  if lastSize > 0 ∧ timeDiff > 0 ∧ currentSize > lastSize then
    let bytesPerSecond := ((currentSize : ℚ) - (lastSize : ℚ)) / timeDiff
    let inst := bytesPerSecond * 8 / (1024 * 1024)
    let samples₁ := samples ++ [inst]
    let samples₂ := if samples₁.length > 10 then samples₁.tail else samples₁
    (samples₂.sum / (samples₂.length : ℚ), samples₂)
  else
    (0, samples)

/-- The emission condition on lines 463-464, exactly as the code writes
it: both disjuncts compare against the single variable
`last_progress_update`, which after the first emission holds the last
emitted *percentage*. -/
def emitCond (lastProgressUpdate : ℚ) (currentTime : ℚ) (percentage : ℚ) : Prop :=
  currentTime - lastProgressUpdate > 1/2 ∨ |percentage - lastProgressUpdate| > 1

instance (l c p : ℚ) : Decidable (emitCond l c p) := by
  unfold emitCond; infer_instance

/-- Everything the monitor run produces: the emitted events, why the
loop ended, and the observations it consumed (one per executed
iteration, in order). -/
structure MonitorResult where
  events : List ProgressEvent
  exit : ExitReason
  consumed : List Obs
deriving DecidableEq

/-- The `while` loop of `monitor_download_progress` (lines 433-491),
driven by an observation trace.  Iteration structure:
1. `stop_event.is_set()` ends the loop (line 433);
2. the hard ceiling check ends the loop (lines 435-437);
3. the body runs inside `try` — when the walk raises (`walkOk = false`)
   the `except` swallows it and the iteration changes nothing (lines
   488-489);
4. otherwise: compute the size, the smoothed speed, the percentage;
   emit when the line 463-464 condition holds (recording the emitted
   percentage in `last_progress_update`); `percentage >= 95` breaks;
   unchanged size with a gap of more than 10 seconds since the previous
   update and `percentage > 90` breaks; else update `last_size` and
   `last_update_time` and continue. -/
def monitorLoop (model_name : String) (expected_size : Nat) (start : ℚ) :
    MState → List Obs → MonitorResult
  | _, [] => ⟨[], .traceEnd, []⟩
  | st, o :: rest =>
    if o.stop then ⟨[], .cancelled, [o]⟩
    else if o.now - start > MAX_MONITOR_TIME then ⟨[], .timeout, [o]⟩
    else if ¬ o.walkOk then
      let r := monitorLoop model_name expected_size start st rest
      ⟨r.events, r.exit, o :: r.consumed⟩
    else
      let current_size := o.size
      let time_diff := o.now - st.lastUpdateTime
      let sp := speedUpdate st.lastSize time_diff current_size st.speedSamples
      let expected_bytes := expected_size * 1024 * 1024
      let percentage := percentageOf expected_size current_size
      let emitted :=
        if emitCond st.lastProgressUpdate o.now percentage then
          some { model := model_name, downloaded_bytes := current_size,
                 total_bytes := expected_bytes, percentage := percentage,
                 speed_mbps := sp.1 : ProgressEvent }
        else none
      let lpu := if emitCond st.lastProgressUpdate o.now percentage
                 then percentage else st.lastProgressUpdate
      if percentage ≥ 95 then
        ⟨emitted.toList, .complete, [o]⟩
      else if current_size = st.lastSize ∧ o.now - st.lastUpdateTime > 10 ∧ percentage > 90 then
        ⟨emitted.toList, .stall, [o]⟩
      else
        let st' : MState :=
          { lastSize := current_size, lastUpdateTime := o.now,
            speedSamples := sp.2, lastProgressUpdate := lpu }
        let r := monitorLoop model_name expected_size start st' rest
        ⟨emitted.toList ++ r.events, r.exit, o :: r.consumed⟩

/-- `monitor_download_progress` (lines 416-491): for an identifier with
no cache path the function returns immediately before the loop (lines
418-420); otherwise it runs the loop from the initial state. -/
def monitor_download_progress (cacheDir : String) (model_name : String)
    (expected_size : Nat) (start : ℚ) (trace : List Obs) : MonitorResult :=
  match get_model_cache_path cacheDir model_name with
  | none => ⟨[], .traceEnd, []⟩
  | some _ => monitorLoop model_name expected_size start (initMState start) trace

/-- Modelled from the spec: the emission condition of §4.4 — "Emit a
structured progress event whenever either (a) at least 0.5s has elapsed
since the last emission, or (b) percentage has moved by more than 1.0
point since the last emission."  Unlike the code, it keeps the time of
the last emission and the last emitted percentage separately. -/
def specEmitCond (lastEmitTime : ℚ) (lastEmitPct : ℚ)
    (currentTime : ℚ) (percentage : ℚ) : Prop :=
  currentTime - lastEmitTime ≥ 1/2 ∨ |percentage - lastEmitPct| > 1

instance (t p c q : ℚ) : Decidable (specEmitCond t p c q) := by
  unfold specEmitCond; infer_instance

/-! ## Download entry point (`download_model`, lines 494-589)

Only the control skeleton up to the start of the transfer matters for
the claims: which result object is returned and whether the progress
monitor thread and the blocking `load_model` call are ever started. -/

/-- Result objects of `download_model` (field sets as in the source). -/
inductive DLResult where
  | alreadyDownloaded (model : String) (size_bytes : Nat)
  | unknownModel (model : String)
  | loadFailed (model : String)
  | completed (model : String) (size_bytes : Nat)
deriving DecidableEq

/-- The `error` field of a `download_model` result (`none` on success). -/
def dlErrorMsg : DLResult → Option String
  | .alreadyDownloaded _ _ => none
  | .unknownModel m => some ("Unknown model: " ++ m)
  | .loadFailed _ => some "Failed to download model"
  | .completed _ _ => none

/-- The `success` field of a `download_model` result. -/
def dlSuccess : DLResult → Bool
  | .alreadyDownloaded _ _ => true
  | .unknownModel _ => false
  | .loadFailed _ => false
  | .completed _ _ => true

/-- Filesystem oracle for `is_model_downloaded` and the size functions:
`pathExists` is `os.path.exists`, `listdirNonempty p` is the truthiness
of `os.listdir(p)`, and `sizeOf` the byte total the successful recursive
walk of a directory returns. -/
structure Fs where
  pathExists : String → Bool
  listdirNonempty : String → Bool
  sizeOf : String → Nat

/-- `is_model_downloaded` (lines 342-350): the cache path exists and its
`snapshots` subdirectory exists and is non-empty. -/
def is_model_downloaded (fs : Fs) (cacheDir : String) (model_name : String) : Bool :=
  match get_model_cache_path cacheDir model_name with
  | none => false
  | some p =>
    fs.pathExists p &&
      (fs.pathExists (p ++ "/snapshots") && fs.listdirNonempty (p ++ "/snapshots"))

/-- What a `download_model` call did: its result, whether the progress
monitor thread was started (lines 524-529), and whether the blocking
`load_model` call was made (line 532). -/
structure DownloadOutcome where
  result : DLResult
  monitorStarted : Bool
  loadCalled : Bool
deriving DecidableEq

/-- The control skeleton of `download_model` (lines 494-572).
`loadSucceeds` abstracts whether `load_model` returns a model (line
532/543).  Order of checks as in the source: already downloaded (lines
501-510), unknown model (lines 512-518), then start the monitor thread
and the download. -/
def download_model (fs : Fs) (cacheDir : String) (loadSucceeds : Bool)
    (model_name : String) : DownloadOutcome :=
  if is_model_downloaded fs cacheDir model_name then
    { result := .alreadyDownloaded model_name
        (fs.sizeOf ((get_model_cache_path cacheDir model_name).getD "")),
      monitorStarted := false, loadCalled := false }
  else if (lookupModel model_name).isNone then
    { result := .unknownModel model_name, monitorStarted := false, loadCalled := false }
  else if loadSucceeds then
    { result := .completed model_name
        (fs.sizeOf ((get_model_cache_path cacheDir model_name).getD "")),
      monitorStarted := true, loadCalled := true }
  else
    { result := .loadFailed model_name, monitorStarted := true, loadCalled := true }

/-! ## Theorems -/

/-- A single `load_model` call preserves the capacity bound of 2. -/
theorem load_model_length_le {H : Type} (construct : String → Option H)
    (cache : List (String × H)) (n : String) (h : cache.length ≤ 2) :
    ((load_model construct cache n).2).length ≤ 2 := by
  unfold load_model
  cases hl : lookupCache cache n with
  | some m => simpa using h
  | none =>
    cases hc : construct (resolveHfId n) with
    | none => simpa using h
    | some m =>
      simp only
      by_cases h2 : 2 ≤ cache.length
      · simp only [if_pos h2, List.length_append, List.length_tail, List.length_cons,
          List.length_nil]
        omega
      · simp only [if_neg h2, List.length_append, List.length_cons, List.length_nil]
        omega

/-- Any sequence of `load_model` calls starting from the empty cache
leaves at most 2 entries. -/
theorem loadSeq_length_le {H : Type} (construct : String → Option H)
    (names : List String) : (loadSeq construct names).length ≤ 2 := by
  suffices h : ∀ c : List (String × H), c.length ≤ 2 →
      (names.foldl (fun c n => (load_model construct c n).2) c).length ≤ 2 by
    exact h [] (by simp)
  induction names with
  | nil => intro c hc; simpa using hc
  | cons n ns ih =>
    intro c hc
    exact ih _ (load_model_length_le construct c n hc)

/-- When a `load_model` call drops a resident entry, that entry was the
head of the cache, i.e. the earliest-inserted resident. -/
theorem load_model_evicts_head {H : Type} (construct : String → Option H)
    (cache : List (String × H)) (n : String) (e : String × H)
    (he : e ∈ cache) (hout : e ∉ (load_model construct cache n).2) :
    cache.head? = some e := by
  unfold load_model at hout
  cases hl : lookupCache cache n with
  | some m => rw [hl] at hout; exact absurd he hout
  | none =>
    rw [hl] at hout
    cases hc : construct (resolveHfId n) with
    | none => rw [hc] at hout; exact absurd he hout
    | some m =>
      rw [hc] at hout
      simp only [List.mem_append] at hout
      push_neg at hout
      by_cases h2 : 2 ≤ cache.length
      · rw [if_pos h2] at hout
        cases cache with
        | nil => cases he
        | cons a t =>
          rcases List.mem_cons.mp he with rfl | ht
          · rfl
          · exact absurd ht hout.1
      · rw [if_neg h2] at hout
        exact absurd he hout.1

/-- Claim C2: after every sequence of `load_model` calls starting from
the empty cache, the model cache holds at most 2 entries, and whenever a
further `load_model` call evicts a resident entry, the evicted entry is
the head of the insertion-ordered cache, i.e. the entry inserted
earliest among the current residents. -/
theorem load_model_cache_capacity_and_insertion_order_eviction {H : Type}
    (construct : String → Option H) (names : List String) (n : String) :
    (loadSeq construct names).length ≤ 2 ∧
    ∀ e ∈ loadSeq construct names,
      e ∉ (load_model construct (loadSeq construct names) n).2 →
      (loadSeq construct names).head? = some e := by
  refine ⟨loadSeq_length_le construct names, ?_⟩
  intro e he hout
  exact load_model_evicts_head construct (loadSeq construct names) n e he hout

/-- Witness for C2: after loading "a" then "b", loading "c" evicts
("a", 0), the earliest-inserted entry. -/
theorem load_model_cache_capacity_witness :
    (("a", 0) ∈ loadSeq (fun _ => some 0) ["a", "b"] ∧
      ("a", 0) ∉ (load_model (fun _ => some 0) (loadSeq (fun _ => some 0) ["a", "b"]) "c").2) ∧
    (loadSeq (fun _ => some 0) ["a", "b"]).length ≤ 2 ∧
    (loadSeq (fun _ => some 0) ["a", "b"]).head? = some ("a", 0) :=
  ⟨⟨by decide, by decide⟩,
    (load_model_cache_capacity_and_insertion_order_eviction (fun _ => some 0) ["a", "b"] "c").1,
    (load_model_cache_capacity_and_insertion_order_eviction (fun _ => some 0) ["a", "b"] "c").2
      ("a", 0) (by decide) (by decide)⟩

/-- The server loop breaks after a dispatched request exactly when that
request's command is `shutdown`. -/
theorem dispatchReq_break_iff {H : Type} (env : SEnv H) (st : SState H) (r : Request) :
    (dispatchReq env st r).2.2 = isShutdownLine (.req r) := by
  unfold dispatchReq isShutdownLine
  by_cases h1 : commandOf r = "ping"
  · simp [h1]
  by_cases h2 : commandOf r = "shutdown"
  · simp [h1, h2]
  by_cases h3 : commandOf r = "transcribe"
  · simp only [if_neg h1, if_pos h3, h2, decide_eq_false_iff_not, h3]
    cases r.audio_path with
    | none => simp [h2]
    | some p =>
      by_cases hp : env.fsExists p
      · simp [hp, h2]
      · simp [hp, h2]
  by_cases h4 : commandOf r = "reload"
  · simp only [if_neg h1, if_neg h3, if_pos h4]
    by_cases hm : r.model.getD st.modelName = st.modelName
    · simp [hm, h2]
    · simp only [if_neg hm]
      cases hload : load_model env.construct
          (st.cache.filter (fun e => e.1 ≠ st.modelName)) (r.model.getD st.modelName) with
      | mk o c =>
        cases o with
        | none => simp [h2]
        | some m => simp [h2]
  · simp [h1, h2, h3, h4]

/-- One line of the loop versus one line of the one-response view. -/
theorem runServerLoop_eq_oneRespEach {H : Type} (env : SEnv H) (st : SState H)
    (lines : List Line) :
    runServerLoop env st lines
      = oneRespEach env st ((consumedLines lines).filter nonBlankLine) := by
  induction lines generalizing st with
  | nil => rfl
  | cons l ls ih =>
    cases l with
    | blank =>
      simpa [runServerLoop, consumedLines, isShutdownLine, nonBlankLine] using ih st
    | malformed e =>
      simp [runServerLoop, consumedLines, isShutdownLine, nonBlankLine, oneRespEach,
        respondLine, ih st]
    | nonObject e =>
      simp [runServerLoop, consumedLines, isShutdownLine, nonBlankLine, oneRespEach,
        respondLine, ih st]
    | req r =>
      by_cases h : isShutdownLine (.req r)
      · have hbrk : (dispatchReq env st r).2.2 = true := by
          rw [dispatchReq_break_iff, h]
        simp [runServerLoop, consumedLines, h, nonBlankLine, oneRespEach, respondLine, hbrk]
      · have hbrk : (dispatchReq env st r).2.2 = false := by
          rw [dispatchReq_break_iff]
          simpa using h
        simp [runServerLoop, consumedLines, h, nonBlankLine, oneRespEach, respondLine, hbrk,
          ih]

/-- The one-response view emits exactly one response per line. -/
theorem oneRespEach_length {H : Type} (env : SEnv H) (st : SState H) (lines : List Line) :
    (oneRespEach env st lines).length = lines.length := by
  induction lines generalizing st with
  | nil => rfl
  | cons l ls ih => simp [oneRespEach, ih]

/-- Claim C1: for every input line sequence, the server loop consumes
the lines up to EOF or the first `shutdown` request and writes exactly
one response per consumed non-blank line, in input order: the response
stream is the stateful one-response-per-line mapping of the non-blank
consumed lines, and its length equals their count.  Blank lines elicit
nothing, malformed JSON exactly one error response, every recognized or
unrecognized command exactly one response, and EOF (the end of the
input) ends the session without a response. -/
theorem server_one_response_per_nonblank_line {H : Type} (env : SEnv H) (st : SState H)
    (lines : List Line) :
    runServerLoop env st lines
      = oneRespEach env st ((consumedLines lines).filter nonBlankLine) ∧
    (runServerLoop env st lines).length
      = ((consumedLines lines).filter nonBlankLine).length ∧
    runServerLoop env st [] = [] := by
  refine ⟨runServerLoop_eq_oneRespEach env st lines, ?_, rfl⟩
  rw [runServerLoop_eq_oneRespEach env st lines, oneRespEach_length]

/-- Claim C3: when a `reload` request names a model different from the
active one and loading that model fails (after the active entry was
evicted from the cache), the response is the error object
`{"error": "Failed to load model '<new>'", "success": false}` and the
session's active model identifier is unchanged; the loop does not
terminate. -/
theorem reload_failure_keeps_active_identifier {H : Type} (env : SEnv H) (st : SState H)
    (r : Request) (new : String)
    (hc : r.command = some "reload") (hm : r.model = some new)
    (hne : new ≠ st.modelName)
    (hfail : (load_model env.construct (st.cache.filter (fun e => e.1 ≠ st.modelName)) new).1
      = none) :
    (dispatchReq env st r).1 = .err ("Failed to load model \x27" ++ new ++ "\x27") ∧
    (dispatchReq env st r).2.1.modelName = st.modelName ∧
    (dispatchReq env st r).2.2 = false := by
  have hcmd : commandOf r = "reload" := by simp [commandOf, hc]
  have hnew : r.model.getD st.modelName = new := by simp [hm]
  unfold dispatchReq
  rw [hcmd]
  simp only [reduceIte, hnew, if_neg hne]
  cases hload : load_model env.construct
      (st.cache.filter (fun e => e.1 ≠ st.modelName)) new with
  | mk o c =>
    cases o with
    | none => simp
    | some m => rw [hload] at hfail; cases hfail

/-- Witness for C3: a reload of "nope" over active model "base" with a
backend that fails every construction. -/
theorem reload_failure_keeps_active_identifier_witness :
    ((⟨some "reload", none, none, none, some "nope"⟩ : Request).command = some "reload" ∧
      (⟨some "reload", none, none, none, some "nope"⟩ : Request).model = some "nope" ∧
      "nope" ≠ "base" ∧
      (load_model (H := Nat) (fun _ => none)
        (([] : List (String × Nat)).filter (fun e => e.1 ≠ "base")) "nope").1 = none) ∧
    ((dispatchReq ⟨fun _ => none, fun _ => true, fun _ _ _ _ => .error "e"⟩
        (⟨"base", none, []⟩ : SState Nat)
        ⟨some "reload", none, none, none, some "nope"⟩).1
      = .err ("Failed to load model \x27nope\x27") ∧
      (dispatchReq ⟨fun _ => none, fun _ => true, fun _ _ _ _ => .error "e"⟩
        (⟨"base", none, []⟩ : SState Nat)
        ⟨some "reload", none, none, none, some "nope"⟩).2.1.modelName = "base") := by
  have h := reload_failure_keeps_active_identifier
    (⟨fun _ => none, fun _ => true, fun _ _ _ _ => .error "e"⟩ : SEnv Nat)
    (⟨"base", none, []⟩ : SState Nat)
    ⟨some "reload", none, none, none, some "nope"⟩ "nope"
    rfl rfl (by decide) rfl
  exact ⟨⟨rfl, rfl, by decide, rfl⟩, h.1, h.2.1⟩

/-- Claim C8: a successful transcription returns the per-segment text
fragments joined with a single space with the concatenation trimmed of
leading and trailing whitespace; in particular an empty segment list
yields the empty string. -/
theorem transcribe_joins_segments_with_space_and_trims {H : Type} (env : SEnv H)
    (cache : List (String × H)) (audio mn : String) (lang : Option String) (task : String)
    (m : H) (cache' : List (String × H)) (segments : List String) (ilang : Option String)
    (hex : env.fsExists audio = true)
    (hload : load_model env.construct cache mn = (some m, cache'))
    (hdec : env.decode m audio lang task = .ok (segments, ilang)) :
    (transcribe_audio env cache audio mn lang task).1
      = .okText (pyStrip (String.intercalate " " segments)) (ilang.getD "unknown") ∧
    (segments = [] →
      (transcribe_audio env cache audio mn lang task).1
        = .okText "" (ilang.getD "unknown")) := by
  have hmain : (transcribe_audio env cache audio mn lang task).1
      = .okText (pyStrip (String.intercalate " " segments)) (ilang.getD "unknown") := by
    unfold transcribe_audio
    rw [hex]
    simp only [not_true, if_false, hload, hdec]
  refine ⟨hmain, ?_⟩
  rintro rfl
  have hempty : pyStrip (String.intercalate " " ([] : List String)) = "" := rfl
  rw [hmain, hempty]

/-- Witness for C8: segments ["Hello", "world."] produce "Hello world.". -/
theorem transcribe_joins_segments_witness :
    ((⟨fun _ => some 7, fun _ => true, fun _ _ _ _ => .ok (["Hello", "world."], some "en")⟩ :
        SEnv Nat).fsExists "a.wav" = true ∧
      load_model (H := Nat) (fun _ => some 7) [] "base" = (some 7, [("base", 7)]) ∧
      (⟨fun _ => some 7, fun _ => true, fun _ _ _ _ => .ok (["Hello", "world."], some "en")⟩ :
        SEnv Nat).decode 7 "a.wav" none "transcribe"
        = .ok (["Hello", "world."], some "en")) ∧
    (transcribe_audio
      (⟨fun _ => some 7, fun _ => true, fun _ _ _ _ => .ok (["Hello", "world."], some "en")⟩ :
        SEnv Nat) [] "a.wav" "base" none "transcribe").1
      = .okText "Hello world." "en" := by
  have h := transcribe_joins_segments_with_space_and_trims
    (⟨fun _ => some 7, fun _ => true, fun _ _ _ _ => .ok (["Hello", "world."], some "en")⟩ :
      SEnv Nat) [] "a.wav" "base" none "transcribe" 7 [("base", 7)]
    ["Hello", "world."] (some "en") rfl (by decide) rfl
  refine ⟨⟨rfl, by decide, rfl⟩, ?_⟩
  rw [h.1]
  rfl

/-- Claim C9: a well-formed request object lacking a `command` field is
dispatched exactly as a `transcribe` command — `request.get` defaults the
command to "transcribe" — rather than being rejected as unknown. -/
theorem missing_command_defaults_to_transcribe {H : Type} (env : SEnv H) (st : SState H)
    (r : Request) (h : r.command = none) :
    commandOf r = "transcribe" ∧
    dispatchReq env st r = dispatchReq env st { r with command := some "transcribe" } := by
  have h1 : commandOf r = "transcribe" := by simp [commandOf, h]
  have h2 : commandOf { r with command := some "transcribe" } = "transcribe" := rfl
  refine ⟨h1, ?_⟩
  unfold dispatchReq
  rw [h1, h2]

/-- Witness for C9: the empty request object dispatches as a transcribe
command (and so gets the missing-audio-path error, not an
unknown-command error). -/
theorem missing_command_defaults_witness :
    ((⟨none, none, none, none, none⟩ : Request).command = none) ∧
    (commandOf ⟨none, none, none, none, none⟩ = "transcribe" ∧
      dispatchReq (⟨fun _ => none, fun _ => true, fun _ _ _ _ => .error "e"⟩ : SEnv Nat)
        (⟨"base", none, []⟩ : SState Nat) ⟨none, none, none, none, none⟩
      = dispatchReq ⟨fun _ => none, fun _ => true, fun _ _ _ _ => .error "e"⟩
        ⟨"base", none, []⟩ ⟨some "transcribe", none, none, none, none⟩) :=
  ⟨rfl, missing_command_defaults_to_transcribe
    (⟨fun _ => none, fun _ => true, fun _ _ _ _ => .error "e"⟩ : SEnv Nat)
    (⟨"base", none, []⟩ : SState Nat) ⟨none, none, none, none, none⟩ rfl⟩

/-- Appending an element in front of a list keeps a known last element. -/
theorem getLast?_cons_eq_some {A : Type} (x : A) (l : List A) (o : A)
    (h : l.getLast? = some o) : (x :: l).getLast? = some o := by
  cases l with
  | nil => simp at h
  | cons c cs => rw [List.getLast?_cons_cons]; exact h

/-- Ceiling property of the raw loop: any consumed observation past the
hard ceiling is the last one consumed, and the loop ends there by the
stop-event check or the ceiling check — the body never runs past the
ceiling. -/
theorem monitorLoop_hard_ceiling (mn : String) (es : Nat) (start : ℚ) :
    ∀ (st : MState) (trace : List Obs),
      ∀ o ∈ (monitorLoop mn es start st trace).consumed,
        MAX_MONITOR_TIME < o.now - start →
        (monitorLoop mn es start st trace).consumed.getLast? = some o ∧
        ((monitorLoop mn es start st trace).exit = .cancelled ∨
          (monitorLoop mn es start st trace).exit = .timeout) := by
  intro st trace
  induction trace generalizing st with
  | nil => intro o ho; cases ho
  | cons o' rest ih =>
    intro o ho hlate
    rw [monitorLoop] at ho ⊢
    by_cases hs : o'.stop = true
    · rw [if_pos hs] at ho ⊢
      rcases List.mem_singleton.mp ho with rfl
      exact ⟨rfl, Or.inl rfl⟩
    · rw [if_neg hs] at ho ⊢
      by_cases ht : o'.now - start > MAX_MONITOR_TIME
      · rw [if_pos ht] at ho ⊢
        rcases List.mem_singleton.mp ho with rfl
        exact ⟨rfl, Or.inr rfl⟩
      · rw [if_neg ht] at ho ⊢
        by_cases hw : o'.walkOk = true
        · rw [if_neg (by simp [hw])] at ho ⊢
          by_cases h95 : percentageOf es o'.size ≥ 95
          · rw [if_pos h95] at ho ⊢
            rcases List.mem_singleton.mp ho with rfl
            exact absurd hlate ht
          · rw [if_neg h95] at ho ⊢
            by_cases hst : o'.size = st.lastSize ∧ o'.now - st.lastUpdateTime > 10 ∧
                percentageOf es o'.size > 90
            · rw [if_pos hst] at ho ⊢
              rcases List.mem_singleton.mp ho with rfl
              exact absurd hlate ht
            · rw [if_neg hst] at ho ⊢
              rcases List.mem_cons.mp ho with rfl | hrest
              · exact absurd hlate ht
              · obtain ⟨hlast, hexit⟩ := ih _ o hrest hlate
                exact ⟨getLast?_cons_eq_some _ _ _ hlast, hexit⟩
        · rw [if_pos (by simp [hw])] at ho ⊢
          rcases List.mem_cons.mp ho with rfl | hrest
          · exact absurd hlate ht
          · obtain ⟨hlast, hexit⟩ := ih st o hrest hlate
            exact ⟨getLast?_cons_eq_some _ _ _ hlast, hexit⟩

/-- Claim C4: every invocation of the download progress monitor stops
within the hard ceiling `MAX_MONITOR_TIME` of elapsed time: every
iteration checks the ceiling before running its body, so an observation
made past the ceiling (with the stop event unset or set alike) is
necessarily the last one the loop consumes, and the loop exits right
there through the stop-event or ceiling check. -/
theorem monitor_terminates_within_hard_ceiling (cacheDir model_name : String)
    (expected_size : Nat) (start : ℚ) (trace : List Obs) :
    ∀ o ∈ (monitor_download_progress cacheDir model_name expected_size start trace).consumed,
      MAX_MONITOR_TIME < o.now - start →
      (monitor_download_progress cacheDir model_name expected_size start trace).consumed.getLast?
          = some o ∧
      ((monitor_download_progress cacheDir model_name expected_size start trace).exit
          = .cancelled ∨
        (monitor_download_progress cacheDir model_name expected_size start trace).exit
          = .timeout) := by
  intro o ho hlate
  unfold monitor_download_progress at ho ⊢
  cases hp : get_model_cache_path cacheDir model_name with
  | none => rw [hp] at ho; cases ho
  | some p =>
    rw [hp] at ho
    exact monitorLoop_hard_ceiling model_name expected_size start _ trace o ho hlate

/-- Witness for C4: a single observation 2000 s after start (ceiling is
1800 s) ends the run at that observation with the timeout exit. -/
theorem monitor_terminates_within_hard_ceiling_witness :
    ((⟨false, 2000, 0, true⟩ : Obs)
        ∈ (monitor_download_progress "HUB" "base" 145 0 [⟨false, 2000, 0, true⟩]).consumed ∧
      MAX_MONITOR_TIME < (⟨false, 2000, 0, true⟩ : Obs).now - 0) ∧
    ((monitor_download_progress "HUB" "base" 145 0 [⟨false, 2000, 0, true⟩]).consumed.getLast?
        = some ⟨false, 2000, 0, true⟩ ∧
      ((monitor_download_progress "HUB" "base" 145 0 [⟨false, 2000, 0, true⟩]).exit
          = .cancelled ∨
        (monitor_download_progress "HUB" "base" 145 0 [⟨false, 2000, 0, true⟩]).exit
          = .timeout)) := by
  have hpath : get_model_cache_path "HUB" "base"
      = some "HUB/models--Systran--faster-whisper-base" := by decide
  have hmem : (⟨false, 2000, 0, true⟩ : Obs)
      ∈ (monitor_download_progress "HUB" "base" 145 0 [⟨false, 2000, 0, true⟩]).consumed := by
    unfold monitor_download_progress
    rw [hpath]
    rw [monitorLoop]
    rw [if_neg (by norm_num), if_pos (by norm_num [MAX_MONITOR_TIME])]
    exact List.mem_singleton.mpr rfl
  have hlate : MAX_MONITOR_TIME < (⟨false, 2000, 0, true⟩ : Obs).now - 0 := by
    norm_num [MAX_MONITOR_TIME]
  exact ⟨⟨hmem, hlate⟩,
    monitor_terminates_within_hard_ceiling "HUB" "base" 145 0 [⟨false, 2000, 0, true⟩]
      ⟨false, 2000, 0, true⟩ hmem hlate⟩

/-! Concrete traces used to examine the monitor's emission and stall
logic. -/

/-- A 2-poll trace (monitor started at t = 0.5 s): poll at t = 1 s sees
83886080 bytes (80% of the 100 MB estimate), poll at t = 1.5 s sees
84410368 bytes (80.5%). -/
def rateTrace : List Obs :=
  [ ⟨false, 1, 83886080, true⟩, ⟨false, 3/2, 84410368, true⟩ ]

/-- A 4-poll trace (monitor started at t = 1000 s) whose sampled size
never changes from 96468992 bytes (92% of the 100 MB estimate): polls at
t = 1000, 1006, 1012 and 1012.5 s.  From the first poll on, the size has
stopped growing; by the poll at t = 1012 s it has not grown for 12 s. -/
def stallTrace : List Obs :=
  [ ⟨false, 1000, 96468992, true⟩, ⟨false, 1006, 96468992, true⟩,
    ⟨false, 1012, 96468992, true⟩, ⟨false, 2025/2, 96468992, true⟩ ]

/-- Claim C5 (against the code): at the second poll of `rateTrace`,
0.5 s after the first emission and with the percentage moved by only
0.5 points, the spec's rate-limit condition mandates an emission, but
the run emits only one event (at the first poll): the code's test
compares the current wall-clock time against `last_progress_update`,
which at that moment holds the last emitted percentage (80), not the
time of the last emission. -/
theorem emission_not_rate_limited_as_specified :
    (monitorLoop "base" 100 (1/2) (initMState (1/2)) rateTrace).events.length = 1 ∧
    specEmitCond 1 (percentageOf 100 83886080) (3/2) (percentageOf 100 84410368) ∧
    ¬ emitCond (percentageOf 100 83886080) (3/2) (percentageOf 100 84410368) := by
  refine ⟨?_, ?_, ?_⟩
  · norm_num [rateTrace, monitorLoop, initMState, percentageOf, speedUpdate, emitCond,
      MAX_MONITOR_TIME, abs_of_nonneg]
  · norm_num [specEmitCond, percentageOf]
  · rw [emitCond, percentageOf, percentageOf]
    norm_num
    rw [abs_of_nonneg (by norm_num)]
    norm_num

/-- Counterexample for C6: on `stallTrace` the sampled size stops
growing for more than 10 consecutive seconds (12 s by the third poll)
while the percentage is 92 > 90, yet the loop does not terminate at that
poll: it consumes all four observations and ends only because the trace
ends.  The code resets its stall reference time every iteration, so only
a single poll-to-poll gap longer than 10 s can fire the stall exit. -/
theorem stall_exit_does_not_fire_on_long_stall :
    (stallTrace.map Obs.size = [96468992, 96468992, 96468992, 96468992] ∧
      (1012 : ℚ) - 1000 > 10 ∧
      percentageOf 100 96468992 > 90) ∧
    (monitorLoop "base" 100 1000 (initMState 1000) stallTrace).exit = ExitReason.traceEnd ∧
    (monitorLoop "base" 100 1000 (initMState 1000) stallTrace).consumed.length = 4 := by
  refine ⟨⟨rfl, by norm_num, by norm_num [percentageOf]⟩, ?_, ?_⟩ <;>
    norm_num [stallTrace, monitorLoop, initMState, percentageOf, speedUpdate, emitCond,
      MAX_MONITOR_TIME, abs_of_nonneg]

/-- Claim C6 as amended: the stall exit fires at a poll exactly when the
sampled size equals the immediately preceding poll's sample, more than
10 seconds elapsed since that preceding poll (the reference time is
reset at every poll, not at the last size change), and the computed
percentage is above 90 (and below the 95 that exits as complete). -/
theorem stall_exit_on_long_single_gap (mn : String) (es : Nat) (start : ℚ)
    (st : MState) (o : Obs) (rest : List Obs)
    (hstop : o.stop = false) (hwalk : o.walkOk = true)
    (hceil : ¬ o.now - start > MAX_MONITOR_TIME)
    (hsz : o.size = st.lastSize)
    (hgap : o.now - st.lastUpdateTime > 10)
    (hpct90 : percentageOf es o.size > 90)
    (hpct95 : ¬ percentageOf es o.size ≥ 95) :
    (monitorLoop mn es start st (o :: rest)).exit = ExitReason.stall ∧
    (monitorLoop mn es start st (o :: rest)).consumed = [o] := by
  rw [monitorLoop]
  rw [if_neg (by simp [hstop]), if_neg hceil, if_neg (by simp [hwalk]),
    if_neg hpct95, if_pos ⟨hsz, hgap, hpct90⟩]
  exact ⟨rfl, rfl⟩

/-- Witness for the amended C6: a poll 11 s after the previous one with
the same size and 92% completes via the stall exit. -/
theorem stall_exit_on_long_single_gap_witness :
    ((⟨false, 1011, 96468992, true⟩ : Obs).stop = false ∧
      (⟨false, 1011, 96468992, true⟩ : Obs).walkOk = true ∧
      ¬ (⟨false, 1011, 96468992, true⟩ : Obs).now - 1000 > MAX_MONITOR_TIME ∧
      (⟨false, 1011, 96468992, true⟩ : Obs).size = (⟨96468992, 1000, [], 92⟩ : MState).lastSize ∧
      (⟨false, 1011, 96468992, true⟩ : Obs).now
          - (⟨96468992, 1000, [], 92⟩ : MState).lastUpdateTime > 10 ∧
      percentageOf 100 (⟨false, 1011, 96468992, true⟩ : Obs).size > 90 ∧
      ¬ percentageOf 100 (⟨false, 1011, 96468992, true⟩ : Obs).size ≥ 95) ∧
    ((monitorLoop "base" 100 1000 ⟨96468992, 1000, [], 92⟩
        [⟨false, 1011, 96468992, true⟩]).exit = ExitReason.stall ∧
      (monitorLoop "base" 100 1000 ⟨96468992, 1000, [], 92⟩
        [⟨false, 1011, 96468992, true⟩]).consumed = [⟨false, 1011, 96468992, true⟩]) := by
  have h1 : (⟨false, 1011, 96468992, true⟩ : Obs).stop = false := rfl
  have h2 : (⟨false, 1011, 96468992, true⟩ : Obs).walkOk = true := rfl
  have h3 : ¬ (⟨false, 1011, 96468992, true⟩ : Obs).now - 1000 > MAX_MONITOR_TIME := by
    norm_num [MAX_MONITOR_TIME]
  have h4 : (⟨false, 1011, 96468992, true⟩ : Obs).size
      = (⟨96468992, 1000, [], 92⟩ : MState).lastSize := rfl
  have h5 : (⟨false, 1011, 96468992, true⟩ : Obs).now
      - (⟨96468992, 1000, [], 92⟩ : MState).lastUpdateTime > 10 := by norm_num
  have h6 : percentageOf 100 (⟨false, 1011, 96468992, true⟩ : Obs).size > 90 := by
    norm_num [percentageOf]
  have h7 : ¬ percentageOf 100 (⟨false, 1011, 96468992, true⟩ : Obs).size ≥ 95 := by
    norm_num [percentageOf]
  exact ⟨⟨h1, h2, h3, h4, h5, h6, h7⟩,
    stall_exit_on_long_single_gap "base" 100 1000 ⟨96468992, 1000, [], 92⟩
      ⟨false, 1011, 96468992, true⟩ [] h1 h2 h3 h4 h5 h6 h7⟩

/-- Claim C7 (against the code): `get_model_size_on_disk` does not
always tolerate a file that can no longer be stat-ed.  A file that
passes the `os.path.isfile` check but vanishes before the
`os.path.getsize` call makes the function raise `OSError` instead of
returning a byte total; only a stat failure observed at the `isfile`
check contributes no size, as the second conjunct shows. -/
theorem size_on_disk_raises_when_file_vanishes_mid_walk :
    get_model_size_on_disk "HUB" "base" true [⟨true, none⟩]
      = .error "OSError: stat failed in os.path.getsize" ∧
    get_model_size_on_disk "HUB" "base" true [⟨false, none⟩, ⟨true, some 5⟩] = .ok 5 := by
  have hp : get_model_cache_path "HUB" "base"
      = some "HUB/models--Systran--faster-whisper-base" := by decide
  constructor <;>
  · unfold get_model_size_on_disk
    rw [hp]
    rfl

/-- Claim C10: an identifier outside the static catalog has no cache
path (`get_model_cache_path` returns `None`), and `download_model`
returns the `{"error": "Unknown model: <name>", "success": false}`
failure object without starting the progress-monitor thread or the
blocking load — even though `load_model` would pass the same identifier
through to the backend unchanged. -/
theorem unknown_model_no_path_no_download (fs : Fs) (cacheDir : String)
    (loadSucceeds : Bool) (name : String)
    (h : lookupModel name = none) :
    get_model_cache_path cacheDir name = none ∧
    download_model fs cacheDir loadSucceeds name
      = ⟨.unknownModel name, false, false⟩ ∧
    dlErrorMsg (DLResult.unknownModel name) = some ("Unknown model: " ++ name) ∧
    dlSuccess (DLResult.unknownModel name) = false ∧
    resolveHfId name = name := by
  have hp : get_model_cache_path cacheDir name = none := by
    unfold get_model_cache_path
    rw [h]
  have hd : is_model_downloaded fs cacheDir name = false := by
    unfold is_model_downloaded
    rw [hp]
  refine ⟨hp, ?_, rfl, rfl, ?_⟩
  · unfold download_model
    rw [hd, h]
    simp
  · unfold resolveHfId
    rw [h]

/-- Witness for C10: the identifier "not-a-model" is outside the
catalog, gets no cache path, and is rejected by `download_model` with
no monitor thread and no load call. -/
theorem unknown_model_no_path_no_download_witness :
    lookupModel "not-a-model" = none ∧
    (get_model_cache_path "HUB" "not-a-model" = none ∧
      download_model ⟨fun _ => true, fun _ => true, fun _ => 0⟩ "HUB" true "not-a-model"
        = ⟨.unknownModel "not-a-model", false, false⟩ ∧
      dlErrorMsg (DLResult.unknownModel "not-a-model")
        = some ("Unknown model: " ++ "not-a-model") ∧
      dlSuccess (DLResult.unknownModel "not-a-model") = false ∧
      resolveHfId "not-a-model" = "not-a-model") :=
  ⟨by decide,
    unknown_model_no_path_no_download ⟨fun _ => true, fun _ => true, fun _ => 0⟩ "HUB" true
      "not-a-model" (by decide)⟩

end WhisperBridge
